import Mathlib

/-!
Shallow embedding of the chatbot-api service
(`app/Controllers/Http/ConversationsController.ts`, `start/routes.ts`,
the `Conversation` model and its migration) and proofs about its
five operations.

The database is modelled as explicit state: a list of `Conversation`
rows and a list of `Message` rows together with the next auto-increment
ids.  Each controller action becomes a pure function from the state (and
the request data, plus explicit stand-ins for the two external effects:
the generated UUID and the outcome of the axios call) to the new state
and an HTTP response value.
-/

namespace ChatbotApi

/-- A row of the `messages` table: `id`, `sender_type` (`'user' | 'bot'`),
`message` text.  Timestamps are irrelevant to the claims and omitted. -/
structure Message where
  id : Nat
  senderType : String
  message : String
deriving Repr, DecidableEq

/-- A row of the `conversations` table: `id`, unique `session_id`,
nullable `messages_id` (reference to the last message) and nullable
`last_messages` (cached text of the last message). -/
structure Conversation where
  id : Nat
  session_id : String
  messagesId : Option Nat
  lastMessages : Option String
deriving Repr, DecidableEq

/-- The persistent store: the two tables plus their auto-increment
counters. -/
structure DB where
  conversations : List Conversation
  messages : List Message
  nextConvId : Nat
  nextMsgId : Nat
deriving Repr, DecidableEq

/-- Well-formedness of the store: primary keys are unique, `session_id`
is unique (the migration declares it `.unique()`), and the
auto-increment counters are above every existing id. -/
structure WF (db : DB) : Prop where
  convIds : db.conversations.Pairwise (fun a b => a.id ≠ b.id)
  sessionIds : db.conversations.Pairwise (fun a b => a.session_id ≠ b.session_id)
  msgIds : db.messages.Pairwise (fun a b => a.id ≠ b.id)
  convIdLt : ∀ c ∈ db.conversations, c.id < db.nextConvId
  msgIdLt : ∀ m ∈ db.messages, m.id < db.nextMsgId

/-- `Conversation.create({ session_id })`: inserts a fresh row with both
last-message columns null and returns it. -/
def createConversation (db : DB) (sid : String) : DB × Conversation :=
  let c : Conversation :=
    { id := db.nextConvId, session_id := sid, messagesId := none, lastMessages := none }
  ({ db with conversations := db.conversations ++ [c], nextConvId := db.nextConvId + 1 }, c)

/-- `Message.create({ senderType, message })`: inserts a fresh row and
returns it. -/
def createMessage (db : DB) (senderType text : String) : DB × Message :=
  let m : Message := { id := db.nextMsgId, senderType := senderType, message := text }
  ({ db with messages := db.messages ++ [m], nextMsgId := db.nextMsgId + 1 }, m)

/-- `Conversation.findBy('session_id', sid)`. -/
def findBySessionId (db : DB) (sid : String) : Option Conversation :=
  db.conversations.find? (fun c => c.session_id == sid)

/-- `conversation.save()`: writes the row back by primary key. -/
def saveConversation (db : DB) (c : Conversation) : DB :=
  { db with conversations := db.conversations.map (fun x => if x.id == c.id then c else x) }

/-- JavaScript's `String.prototype.trim` (applied by the validator's
`{ trim: true }`): strip leading and trailing whitespace. -/
def trimString (s : String) : String :=
  ⟨((s.data.dropWhile Char.isWhitespace).reverse.dropWhile Char.isWhitespace).reverse⟩

/-- The hex-digit test of the controller's UUID regex character class
`[0-9a-f]` under the `i` flag. -/
def isHexChar (c : Char) : Bool :=
  c.isDigit || (Char.ofNat 97 ≤ c && c ≤ Char.ofNat 102) || (Char.ofNat 65 ≤ c && c ≤ Char.ofNat 70)

/-- Split a character list at every occurrence of `sep` (the separator
is dropped; empty groups are kept, as in a regex group match). -/
def splitOnSep (sep : Char) : List Char → List (List Char)
  | [] => [[]]
  | c :: cs =>
      match splitOnSep sep cs with
      | [] => if c = sep then [[], [c]] else [[c]]
      | g :: gs => if c = sep then [] :: g :: gs else (c :: g) :: gs

/-- The controller's UUID test
`/^[0-9a-f]{8}-[0-9a-f]{4}-[0-9a-f]{4}-[0-9a-f]{4}-[0-9a-f]{12}$/i`:
five hyphen-separated hex groups of lengths 8-4-4-4-12.  The same shape
is what the validator's `rules.uuid()` accepts. -/
def isUuidString (s : String) : Bool :=
  match splitOnSep (Char.ofNat 45) s.data with
  | [a, b, c, d, e] =>
      a.length == 8 && b.length == 4 && c.length == 4 && d.length == 4 && e.length == 12
        && (a ++ b ++ c ++ d ++ e).all isHexChar
  | _ => false

/-- Parse a decimal digit string to a natural number; `none` when the
string is empty or holds a non-digit (the database rejects comparing the
integer `id` column against such a string). -/
def parseNat? (s : String) : Option Nat :=
  if s.data ≠ [] ∧ s.data.all Char.isDigit then
    some (s.data.foldl (fun n c => n * 10 + (c.toNat - 48)) 0)
  else none

/-- The validation schema of `sendQuestion`: `question` is a trimmed
string of minLength 1; `sessionId` is optional and, when present, must
be a UUID (also trimmed). -/
def validatePayload (question : String) (sessionId? : Option String) : Bool :=
  decide (1 ≤ (trimString question).length)
    && (match sessionId? with
        | none => true
        | some s => isUuidString (trimString s))

/-- The body the external chatbot API answered with, as far as the
controller inspects it: an optional `message` field
(`externalApiResponse.data.message`). -/
structure ExtBody where
  message : Option String
deriving Repr, DecidableEq

/-- Outcome of the `axios.post` call: either a response whose `data` may
or may not be a truthy object, or a thrown error (network failure,
non-2xx status, timeout). -/
inductive ExtCallResult where
  | ok (data : Option ExtBody)
  | err
deriving Repr, DecidableEq

/-- The fixed fallback answer initialised into `botResponseText`. -/
def fallbackText : String :=
  "Sorry, I could not get a response from the chatbot at this time."

/-- Lines 100–118 of the controller: `botResponseText` starts as the
fallback and is overwritten only when the call succeeds and
`externalApiResponse.data && externalApiResponse.data.message` is truthy
(for a string field: present, non-null and non-empty). -/
def resolveBotResponseText (ext : ExtCallResult) : String :=
  match ext with
  | .err => fallbackText
  | .ok none => fallbackText
  | .ok (some body) =>
      match body.message with
      | none => fallbackText
      | some s => if s == "" then fallbackText else s

/-- Lines 71–84: resolve or create the conversation.  Returns the new
state, the conversation row in hand, and `currentSessionId`.
`freshUuid` stands for the value `uuidv4()` would produce. -/
def resolveConversation (db : DB) (sessionId? : Option String) (freshUuid : String) :
    DB × Conversation × String :=
  match sessionId? with
  | some sid =>
      match findBySessionId db sid with
      | some conv => (db, conv, conv.session_id)
      | none =>
          let (db1, conv) := createConversation db sid
          (db1, conv, sid)
  | none =>
      let (db1, conv) := createConversation db freshUuid
      (db1, conv, freshUuid)

/-- Response of `POST /questions`: `response.ok({ sessionId, message })`
or `response.badRequest({ errors })` on validation failure. -/
inductive SendResponse where
  | ok (sessionId : String) (message : String)
  | badRequest
deriving Repr, DecidableEq

/-- HTTP status of a `SendResponse`. -/
def SendResponse.status : SendResponse → Nat
  | .ok _ _ => 200
  | .badRequest => 400

/-- The `message` field of a `SendResponse` body, when present. -/
def SendResponse.answer? : SendResponse → Option String
  | .ok _ m => some m
  | .badRequest => none

/-- The `sessionId` field of a `SendResponse` body, when present. -/
def SendResponse.sessionId? : SendResponse → Option String
  | .ok sid _ => some sid
  | .badRequest => none

/-- `sendQuestion` (`POST /questions`), lines 52–144: validate, resolve
or create the conversation, persist the user message, call the external
API (its outcome supplied as `ext`), persist the bot message, update the
conversation's `messagesId` / `lastMessages`, and reply
`{ sessionId, message }` with status 200. -/
def sendQuestion (db : DB) (question : String) (sessionId? : Option String)
    (ext : ExtCallResult) (freshUuid : String) : DB × SendResponse :=
  if validatePayload question sessionId? then
    let userQuestion := trimString question
    let (db1, conversation, currentSessionId) :=
      resolveConversation db (sessionId?.map trimString) freshUuid
    let (db2, _userMessage) := createMessage db1 "user" userQuestion
    let botResponseText := resolveBotResponseText ext
    let (db3, botMessage) := createMessage db2 "bot" botResponseText
    let conversation' :=
      { conversation with messagesId := some botMessage.id, lastMessages := some botResponseText }
    let db4 := saveConversation db3 conversation'
    (db4, .ok currentSessionId botResponseText)
  else
    (db, .badRequest)

/-- What `conversation.serialize()` exposes after
`.preload('lastMessage')`: the row's own columns plus the resolved last
`Message` (looked up through the `messages_id` foreign key), or `null`
when the reference is null or dangling. -/
structure SerializedConversation where
  id : Nat
  sessionId : String
  messagesId : Option Nat
  lastMessages : Option String
  lastMessage : Option Message
deriving Repr, DecidableEq

/-- `.preload('lastMessage')` followed by `.serialize()`. -/
def serializeConversation (db : DB) (c : Conversation) : SerializedConversation :=
  { id := c.id
    sessionId := c.session_id
    messagesId := c.messagesId
    lastMessages := c.lastMessages
    lastMessage := c.messagesId.bind (fun i => db.messages.find? (fun m => m.id == i)) }

/-- The optional `where('session_id', sessionId)` filter of
`getAllConversations` (applied only when the query-string value is
truthy, so an empty string means no filter). -/
def filterBySession (db : DB) (sessionId? : Option String) : List Conversation :=
  match sessionId? with
  | none => db.conversations
  | some s => if s == "" then db.conversations else db.conversations.filter (fun c => c.session_id == s)

/-- The `meta` object of Lucid's `paginate(...).serialize()`. -/
structure PageMeta where
  total : Nat
  perPage : Nat
  currentPage : Nat
  lastPage : Nat
deriving Repr, DecidableEq

/-- Body of the `getAllConversations` 200 response: pagination metadata
plus the page's serialized rows. -/
structure PaginatedConversations where
  meta : PageMeta
  data : List SerializedConversation
deriving Repr, DecidableEq

/-- `getAllConversations` (`GET /conversation`), lines 197–215: optional
exact session filter, then `paginate(page, limit)` — 1-indexed, so page
`p` holds the rows from offset `(p-1)*limit`, and `lastPage` is
`max(ceil(total/perPage), 1)` — and the result is serialized with each
row's preloaded last message.  The first component is the HTTP status:
the success path always replies 200. -/
def getAllConversations (db : DB) (sessionId? : Option String) (page limit : Nat) :
    Nat × PaginatedConversations :=
  let filtered := filterBySession db sessionId?
  let total := filtered.length
  let pageRows := (filtered.drop ((page - 1) * limit)).take limit
  (200,
   { meta :=
       { total := total
         perPage := limit
         currentPage := page
         lastPage := max ((total + limit - 1) / limit) 1 }
     data := pageRows.map (serializeConversation db) })

/-- Response of `GET /conversation/:id_or_uuid`: 200 with the serialized
conversation, 404, or 500 (the catch branch; reached e.g. when the
database rejects comparing an integer `id` column with a non-numeric
string). -/
inductive GetConvResponse where
  | ok (body : SerializedConversation)
  | notFound
  | internalError
deriving Repr, DecidableEq

/-- HTTP status of a `GetConvResponse`. -/
def GetConvResponse.status : GetConvResponse → Nat
  | .ok _ => 200
  | .notFound => 404
  | .internalError => 500

/-- `getConversationMessages` (`GET /conversation/:id_or_uuid`), lines
285–318: test the parameter against the UUID regex; UUID-shaped inputs
are looked up by `session_id`, anything else by primary `id` (the
string compared against the integer column — a non-numeric string makes
the database throw, landing in the catch branch). 404 when no row
matches; otherwise 200 with the row serialized with its preloaded last
message. -/
def getConversationMessages (db : DB) (idOrUuid : String) : GetConvResponse :=
  if isUuidString idOrUuid then
    match db.conversations.find? (fun c => c.session_id == idOrUuid) with
    | some conversation => .ok (serializeConversation db conversation)
    | none => .notFound
  else
    match parseNat? idOrUuid with
    | some n =>
        match db.conversations.find? (fun c => c.id == n) with
        | some conversation => .ok (serializeConversation db conversation)
        | none => .notFound
    | none => .internalError

/-- Response of the two delete endpoints: `response.noContent()` (204)
or `response.notFound(...)` (404). -/
inductive DeleteResponse where
  | noContent
  | notFound
deriving Repr, DecidableEq

/-- HTTP status of a `DeleteResponse`. -/
def DeleteResponse.status : DeleteResponse → Nat
  | .noContent => 204
  | .notFound => 404

/-- `deleteConversation` (`DELETE /conversation/:id`), lines 341–359:
`Conversation.find(id)`, 404 when absent, otherwise delete that row
(messages are untouched: nothing cascades from conversations to
messages) and reply 204. -/
def deleteConversation (db : DB) (id : Nat) : DB × DeleteResponse :=
  match db.conversations.find? (fun c => c.id == id) with
  | none => (db, .notFound)
  | some _ =>
      ({ db with conversations := db.conversations.filter (fun c => !(c.id == id)) }, .noContent)

/-- `deleteMessage` (`DELETE /message/:id`), lines 382–409:
`Message.find(id)`, 404 when absent; otherwise every conversation whose
`messages_id` equals this message's id gets both `messagesId` and
`lastMessages` set to null and saved, then the message row is deleted
and the reply is 204. -/
def deleteMessage (db : DB) (id : Nat) : DB × DeleteResponse :=
  match db.messages.find? (fun m => m.id == id) with
  | none => (db, .notFound)
  | some message =>
      let conversations' := db.conversations.map (fun conv =>
        if conv.messagesId == some message.id then
          { conv with messagesId := none, lastMessages := none }
        else conv)
      ({ db with
          conversations := conversations'
          messages := db.messages.filter (fun m => !(m.id == message.id)) },
       .noContent)

/-- Body of a catch-branch 500 response: every handler replies with a
fixed generic `message` plus an `error` field holding `error.message`. -/
structure InternalErrorBody where
  message : String
  error : String
deriving Repr, DecidableEq

/-- Line 142: the 500 body of `sendQuestion`'s catch branch, given the
caught error's `.message`. -/
def sendQuestionInternalError (errMsg : String) : Nat × InternalErrorBody :=
  (500, { message := "An unexpected error occurred.", error := errMsg })

/-- Line 213: the 500 body of `getAllConversations`'s catch branch. -/
def getAllConversationsInternalError (errMsg : String) : Nat × InternalErrorBody :=
  (500, { message := "Failed to retrieve conversations.", error := errMsg })

/-- Line 316: the 500 body of `getConversationMessages`'s catch branch. -/
def getConversationMessagesInternalError (errMsg : String) : Nat × InternalErrorBody :=
  (500, { message := "Failed to retrieve conversation details.", error := errMsg })

/-- Line 357: the 500 body of `deleteConversation`'s catch branch. -/
def deleteConversationInternalError (errMsg : String) : Nat × InternalErrorBody :=
  (500, { message := "Failed to delete conversation.", error := errMsg })

/-- Line 407: the 500 body of `deleteMessage`'s catch branch. -/
def deleteMessageInternalError (errMsg : String) : Nat × InternalErrorBody :=
  (500, { message := "Failed to delete message.", error := errMsg })

/-- A route registration from `start/routes.ts`: HTTP method, URL
pattern, and the `'Controller.method'` handler string. -/
structure RouteDef where
  httpMethod : String
  pattern : String
  handler : String
deriving Repr, DecidableEq

/-- The five controller routes registered in `start/routes.ts`
(lines 28–42; the root `GET /` closure is omitted as it names no
controller). -/
def routes : List RouteDef :=
  [ { httpMethod := "POST", pattern := "/questions",
      handler := "ConversationsController.sendQuestion" }
  , { httpMethod := "GET", pattern := "/conversation",
      handler := "ConversationsController.getAllConversations" }
  , { httpMethod := "GET", pattern := "/conversation/:id_or_uuid",
      handler := "ConversationsController.getConversationById" }
  , { httpMethod := "DELETE", pattern := "/conversation/:id",
      handler := "ConversationsController.deleteConversation" }
  , { httpMethod := "DELETE", pattern := "/message/:id",
      handler := "ConversationsController.deleteMessage" } ]

/-- The public methods defined by `ConversationsController`. -/
def conversationsControllerMethods : List String :=
  ["sendQuestion", "getAllConversations", "getConversationMessages",
   "deleteConversation", "deleteMessage"]

/-- Whether a `'Controller.method'` handler string resolves to a method
that actually exists on `ConversationsController`. -/
def handlerResolves (handler : String) : Bool :=
  match splitOnSep (Char.ofNat 46) handler.data with
  | [ctrl, m] =>
      String.mk ctrl == "ConversationsController"
        && conversationsControllerMethods.contains (String.mk m)
  | _ => false

/-- A small concrete store used by witnesses. -/
def dbW : DB :=
  { conversations := [⟨1, "aaaaaaaa-bbbb-cccc-dddd-eeeeeeeeeeee", none, none⟩]
    messages := []
    nextConvId := 2
    nextMsgId := 1 }

/-- A concrete store for the delete witnesses: one conversation whose
last-message columns point at the single stored message. -/
def dbW2 : DB :=
  { conversations := [⟨1, "aaaaaaaa-bbbb-cccc-dddd-eeeeeeeeeeee", some 1, some "x"⟩]
    messages := [⟨1, "bot", "x"⟩]
    nextConvId := 2
    nextMsgId := 2 }


lemma resolveConversation_fst_messages (db : DB) (sid? : Option String) (u : String) :
    ((resolveConversation db sid? u).1).messages = db.messages := by
  cases sid? with
  | none => simp [resolveConversation, createConversation]
  | some s => cases h : findBySessionId db s <;> simp [resolveConversation, createConversation, h]

lemma resolveConversation_fst_nextMsgId (db : DB) (sid? : Option String) (u : String) :
    ((resolveConversation db sid? u).1).nextMsgId = db.nextMsgId := by
  cases sid? with
  | none => simp [resolveConversation, createConversation]
  | some s => cases h : findBySessionId db s <;> simp [resolveConversation, createConversation, h]

lemma sendQuestion_eq (db : DB) (q : String) (sid? : Option String) (ext : ExtCallResult)
    (u : String) (hval : validatePayload q sid? = true) :
    sendQuestion db q sid? ext u =
      ({ conversations :=
           ((resolveConversation db (sid?.map trimString) u).1).conversations.map
             (fun x =>
               if x.id == ((resolveConversation db (sid?.map trimString) u).2.1).id then
                 { (resolveConversation db (sid?.map trimString) u).2.1 with
                     messagesId := some (db.nextMsgId + 1),
                     lastMessages := some (resolveBotResponseText ext) }
               else x)
         messages := db.messages ++
           [⟨db.nextMsgId, "user", trimString q⟩,
            ⟨db.nextMsgId + 1, "bot", resolveBotResponseText ext⟩]
         nextConvId := ((resolveConversation db (sid?.map trimString) u).1).nextConvId
         nextMsgId := db.nextMsgId + 2 },
       SendResponse.ok ((resolveConversation db (sid?.map trimString) u).2.2)
         (resolveBotResponseText ext)) := by
  have hm := resolveConversation_fst_messages db (sid?.map trimString) u
  have hn := resolveConversation_fst_nextMsgId db (sid?.map trimString) u
  rcases hres : resolveConversation db (sid?.map trimString) u with ⟨db1, conv, csid⟩
  rw [hres] at hm hn
  simp only at hm hn
  simp only [sendQuestion, hval, if_true, hres, createMessage, saveConversation]
  simp [hm, hn, List.append_assoc]

lemma resolveBotResponseText_ok (body : ExtBody) (s : String)
    (hmsg : body.message = some s) (hne : s ≠ "") :
    resolveBotResponseText (.ok (some body)) = s := by
  simp [resolveBotResponseText, hmsg, hne]

lemma resolveBotResponseText_fallback (ext : ExtCallResult)
    (h : ext = .err ∨ ext = .ok none ∨
      ∃ body, ext = .ok (some body) ∧ (body.message = none ∨ body.message = some "")) :
    resolveBotResponseText ext = fallbackText := by
  rcases h with rfl | rfl | ⟨body, rfl, hmsg | hmsg⟩
  · rfl
  · rfl
  · simp [resolveBotResponseText, hmsg]
  · simp [resolveBotResponseText, hmsg]

/-- C1: on any valid question the request succeeds with status 200; the
answer returned is the external API's `message` field when the call
succeeded with a well-formed one, the fixed fallback string on any
failure (thrown error, falsy `data`, missing or empty `message`); and a
`bot` message carrying exactly that answer text is persisted. -/
theorem sendQuestion_absorbs_external_failures
    (db : DB) (q : String) (sid? : Option String) (ext : ExtCallResult) (u : String)
    (hval : validatePayload q sid? = true) :
    ((sendQuestion db q sid? ext u).2).status = 200 ∧
    ∃ ans, (sendQuestion db q sid? ext u).2.answer? = some ans ∧
      (∀ body s, ext = ExtCallResult.ok (some body) → body.message = some s → s ≠ "" →
        ans = s) ∧
      ((ext = ExtCallResult.err ∨ ext = ExtCallResult.ok none ∨
        ∃ body, ext = ExtCallResult.ok (some body) ∧
          (body.message = none ∨ body.message = some "")) → ans = fallbackText) ∧
      ∃ m, m ∈ (sendQuestion db q sid? ext u).1.messages ∧
        m.senderType = "bot" ∧ m.message = ans := by
  rw [sendQuestion_eq db q sid? ext u hval]
  refine ⟨rfl, resolveBotResponseText ext, rfl, ?_, ?_, ?_⟩
  · rintro body s rfl hmsg hne
    exact resolveBotResponseText_ok body s hmsg hne
  · exact resolveBotResponseText_fallback ext
  · exact ⟨⟨db.nextMsgId + 1, "bot", resolveBotResponseText ext⟩, by simp, rfl, rfl⟩

/-- Witness for C1 at a concrete store and a failing external call. -/
theorem sendQuestion_absorbs_external_failures_witness :
    ((sendQuestion ⟨[], [], 1, 1⟩ "hi" none ExtCallResult.err "sid").2).status = 200 :=
  (sendQuestion_absorbs_external_failures ⟨[], [], 1, 1⟩ "hi" none ExtCallResult.err "sid"
    (by decide)).1

lemma mem_of_findBySessionId (db : DB) (sid : String) (conv : Conversation)
    (h : findBySessionId db sid = some conv) : conv ∈ db.conversations := by
  unfold findBySessionId at h
  exact List.mem_of_find?_eq_some h

lemma resolveConversation_found (db : DB) (sid : String) (u : String) (conv : Conversation)
    (hfound : findBySessionId db sid = some conv) :
    resolveConversation db (some sid) u = (db, conv, conv.session_id) := by
  simp [resolveConversation, hfound]

lemma resolveConversation_not_found (db : DB) (sid : String) (u : String)
    (hfound : findBySessionId db sid = none) :
    resolveConversation db (some sid) u =
      ({ db with
           conversations := db.conversations ++
             [{ id := db.nextConvId, session_id := sid, messagesId := none, lastMessages := none }]
           nextConvId := db.nextConvId + 1 },
       { id := db.nextConvId, session_id := sid, messagesId := none, lastMessages := none },
       sid) := by
  simp [resolveConversation, createConversation, hfound]

lemma resolveConversation_none (db : DB) (u : String) :
    resolveConversation db none u =
      ({ db with
           conversations := db.conversations ++
             [{ id := db.nextConvId, session_id := u, messagesId := none, lastMessages := none }]
           nextConvId := db.nextConvId + 1 },
       { id := db.nextConvId, session_id := u, messagesId := none, lastMessages := none },
       u) := by
  simp [resolveConversation, createConversation]

/-- C2: a supplied sessionId naming an existing conversation reuses that
row (no new row; its last-message reference and cached text point at the
new bot message); a supplied but unknown sessionId creates a new row
under exactly the supplied id; an omitted sessionId creates a new row
under the freshly generated UUID. -/
theorem sendQuestion_session_resolution
    (db : DB) (q : String) (sid? : Option String) (ext : ExtCallResult) (u : String)
    (hwf : WF db) (hval : validatePayload q sid? = true) :
    (∀ sid conv, sid? = some sid → findBySessionId db (trimString sid) = some conv →
      ((sendQuestion db q sid? ext u).1.conversations.length = db.conversations.length ∧
       ∃ mb, mb ∈ (sendQuestion db q sid? ext u).1.messages ∧ mb ∉ db.messages ∧
         mb.senderType = "bot" ∧
         ∃ c', c' ∈ (sendQuestion db q sid? ext u).1.conversations ∧
           c'.id = conv.id ∧ c'.session_id = conv.session_id ∧
           c'.messagesId = some mb.id ∧ c'.lastMessages = some mb.message)) ∧
    (∀ sid, sid? = some sid → findBySessionId db (trimString sid) = none →
      ((sendQuestion db q sid? ext u).1.conversations.length = db.conversations.length + 1 ∧
       ∃ c', c' ∈ (sendQuestion db q sid? ext u).1.conversations ∧
         c' ∉ db.conversations ∧ c'.session_id = trimString sid)) ∧
    (sid? = none →
      ((sendQuestion db q sid? ext u).1.conversations.length = db.conversations.length + 1 ∧
       ∃ c', c' ∈ (sendQuestion db q sid? ext u).1.conversations ∧
         c' ∉ db.conversations ∧ c'.session_id = u)) := by
  refine ⟨?_, ?_, ?_⟩
  · rintro sid conv rfl hfound
    have hconvmem : conv ∈ db.conversations := mem_of_findBySessionId db _ conv hfound
    have hres : resolveConversation db (Option.map trimString (some sid)) u =
        (db, conv, conv.session_id) := by
      simpa using resolveConversation_found db (trimString sid) u conv hfound
    rw [sendQuestion_eq db q (some sid) ext u hval, hres]
    refine ⟨by simp, ⟨db.nextMsgId + 1, "bot", resolveBotResponseText ext⟩, by simp, ?_, rfl, ?_⟩
    · intro hmem
      have := hwf.msgIdLt _ hmem
      simp only at this
      omega
    · refine ⟨⟨conv.id, conv.session_id, some (db.nextMsgId + 1),
          some (resolveBotResponseText ext)⟩, ?_, rfl, rfl, rfl, rfl⟩
      exact List.mem_map.mpr ⟨conv, hconvmem, by simp⟩
  · rintro sid rfl hfound
    have hres : resolveConversation db (Option.map trimString (some sid)) u =
        ({ db with
             conversations := db.conversations ++
               [⟨db.nextConvId, trimString sid, none, none⟩]
             nextConvId := db.nextConvId + 1 },
         ⟨db.nextConvId, trimString sid, none, none⟩, trimString sid) := by
      simpa using resolveConversation_not_found db (trimString sid) u hfound
    rw [sendQuestion_eq db q (some sid) ext u hval, hres]
    refine ⟨by simp, ?_⟩
    refine ⟨⟨db.nextConvId, trimString sid, some (db.nextMsgId + 1),
        some (resolveBotResponseText ext)⟩,
      List.mem_map.mpr ⟨⟨db.nextConvId, trimString sid, none, none⟩, by simp, by simp⟩,
      ?_, rfl⟩
    intro hmem
    have := hwf.convIdLt _ hmem
    simp only at this
    omega
  · rintro rfl
    have hres : resolveConversation db (Option.map trimString none) u =
        ({ db with
             conversations := db.conversations ++ [⟨db.nextConvId, u, none, none⟩]
             nextConvId := db.nextConvId + 1 },
         ⟨db.nextConvId, u, none, none⟩, u) := by
      simpa using resolveConversation_none db u
    rw [sendQuestion_eq db q none ext u hval, hres]
    refine ⟨by simp, ?_⟩
    refine ⟨⟨db.nextConvId, u, some (db.nextMsgId + 1),
        some (resolveBotResponseText ext)⟩,
      List.mem_map.mpr ⟨⟨db.nextConvId, u, none, none⟩, by simp, by simp⟩,
      ?_, rfl⟩
    intro hmem
    have := hwf.convIdLt _ hmem
    simp only at this
    omega

/-- Witness for C2 at a concrete store, omitted sessionId case. -/
theorem sendQuestion_session_resolution_witness :
    ∃ c', c' ∈ (sendQuestion dbW "hi" none ExtCallResult.err "u1").1.conversations ∧
      c' ∉ dbW.conversations ∧ c'.session_id = "u1" :=
  (((sendQuestion_session_resolution dbW "hi" none ExtCallResult.err "u1"
    ⟨by decide, by decide, by decide, by decide, by decide⟩ (by decide)).2.2) rfl).2

/-- C6: with a valid question and no sessionId, the response carries the
freshly generated UUID (distinct from every previously issued one, the
generator's freshness being the hypothesis), exactly one new
conversation row is appended (existing rows untouched), and exactly two
new message rows are appended: a `user` row with the question and a
`bot` row whose text is the returned answer. -/
theorem sendQuestion_no_session_creates_fresh
    (db : DB) (q : String) (ext : ExtCallResult) (u : String) (issued : List String)
    (hwf : WF db) (hval : validatePayload q none = true) (hfresh : u ∉ issued) :
    ((sendQuestion db q none ext u).2).sessionId? = some u ∧
    u ∉ issued ∧
    (sendQuestion db q none ext u).1.conversations =
      db.conversations ++
        [⟨db.nextConvId, u, some (db.nextMsgId + 1),
          some (resolveBotResponseText ext)⟩] ∧
    ∃ mu mb, (sendQuestion db q none ext u).1.messages = db.messages ++ [mu, mb] ∧
      mu.senderType = "user" ∧ mu.message = trimString q ∧
      mb.senderType = "bot" ∧
      ((sendQuestion db q none ext u).2).answer? = some mb.message := by
  have hres : resolveConversation db (Option.map trimString none) u =
      ({ db with
           conversations := db.conversations ++ [⟨db.nextConvId, u, none, none⟩]
           nextConvId := db.nextConvId + 1 },
       ⟨db.nextConvId, u, none, none⟩, u) := by
    simpa using resolveConversation_none db u
  rw [sendQuestion_eq db q none ext u hval, hres]
  refine ⟨rfl, hfresh, ?_, ?_⟩
  · simp only [List.map_append]
    have hold : db.conversations.map
        (fun x =>
          if x.id == (⟨db.nextConvId, u, none, none⟩ : Conversation).id then
            { (⟨db.nextConvId, u, none, none⟩ : Conversation) with
                messagesId := some (db.nextMsgId + 1),
                lastMessages := some (resolveBotResponseText ext) }
          else x) = db.conversations := by
      rw [show db.conversations = db.conversations.map id by simp]
      rw [List.map_map]
      refine List.map_congr_left ?_
      intro a ha
      have := hwf.convIdLt _ ha
      simp only [Function.comp, id_eq]
      have hne : (a.id == db.nextConvId) = false := by
        simp only [beq_eq_false_iff_ne, ne_eq]
        omega
      simp [hne]
    rw [hold]
    simp
  · exact ⟨⟨db.nextMsgId, "user", trimString q⟩,
      ⟨db.nextMsgId + 1, "bot", resolveBotResponseText ext⟩, rfl, rfl, rfl, rfl, rfl⟩

/-- Witness for C6 at a concrete store with a previously issued UUID. -/
theorem sendQuestion_no_session_creates_fresh_witness :
    ((sendQuestion dbW "hi" none ExtCallResult.err "u-fresh").2).sessionId? = some "u-fresh" :=
  (sendQuestion_no_session_creates_fresh dbW "hi" ExtCallResult.err "u-fresh"
    ["aaaaaaaa-bbbb-cccc-dddd-eeeeeeeeeeee"]
    ⟨by decide, by decide, by decide, by decide, by decide⟩ (by decide) (by decide)).1

/-- C10: when the external call itself succeeds but the body's `message`
field is falsy (absent or the empty string), the answer returned and the
persisted bot message are the fixed fallback string. -/
theorem sendQuestion_falsy_message_uses_fallback
    (db : DB) (q : String) (sid? : Option String) (u : String) (body : ExtBody)
    (hval : validatePayload q sid? = true)
    (hmsg : body.message = none ∨ body.message = some "") :
    ((sendQuestion db q sid? (.ok (some body)) u).2).answer? = some fallbackText ∧
    ∃ m, m ∈ (sendQuestion db q sid? (.ok (some body)) u).1.messages ∧
      m.senderType = "bot" ∧ m.message = fallbackText := by
  have hfb : resolveBotResponseText (.ok (some body)) = fallbackText :=
    resolveBotResponseText_fallback _ (Or.inr (Or.inr ⟨body, rfl, hmsg⟩))
  rw [sendQuestion_eq db q sid? (.ok (some body)) u hval]
  constructor
  · simp [SendResponse.answer?, hfb]
  · exact ⟨⟨db.nextMsgId + 1, "bot", resolveBotResponseText (.ok (some body))⟩,
      by simp, rfl, hfb⟩

/-- Witness for C10: external call delivers `{ message: "" }`. -/
theorem sendQuestion_falsy_message_uses_fallback_witness :
    ((sendQuestion dbW "hi" none (.ok (some ⟨some ""⟩)) "u2").2).answer? = some fallbackText :=
  (sendQuestion_falsy_message_uses_fallback dbW "hi" none "u2" ⟨some ""⟩
    (by decide) (Or.inr rfl)).1

/-- C3: deleting an existing message clears the last-message reference
and cached text of every conversation that pointed at it while keeping
every conversation row, removes the message, and preserves the invariant
that every non-null last-message reference names an existing message. -/
theorem deleteMessage_clears_references
    (db : DB) (mid : Nat) (m0 : Message)
    (hm : m0 ∈ db.messages) (hid : m0.id = mid) :
    ((deleteMessage db mid).2) = DeleteResponse.noContent ∧
    (deleteMessage db mid).1.conversations.length = db.conversations.length ∧
    (∀ c ∈ db.conversations, c.messagesId = some mid →
      (⟨c.id, c.session_id, none, none⟩ : Conversation) ∈ (deleteMessage db mid).1.conversations) ∧
    (∀ m' ∈ (deleteMessage db mid).1.messages, m'.id ≠ mid) ∧
    ((∀ c ∈ db.conversations, ∀ i, c.messagesId = some i → ∃ m' ∈ db.messages, m'.id = i) →
      ∀ c ∈ (deleteMessage db mid).1.conversations, ∀ i, c.messagesId = some i →
        ∃ m' ∈ (deleteMessage db mid).1.messages, m'.id = i) := by
  cases hfind : db.messages.find? (fun m => m.id == mid) with
  | none =>
      exfalso
      rw [List.find?_eq_none] at hfind
      exact hfind m0 hm (by simp [hid])
  | some m1 =>
      have hm1 : m1.id = mid := by
        have := List.find?_some hfind
        simpa using this
      simp only [deleteMessage, hfind]
      refine ⟨trivial, by simp, ?_, ?_, ?_⟩
      · intro c hc hcm
        refine List.mem_map.mpr ⟨c, hc, ?_⟩
        have : (c.messagesId == some m1.id) = true := by simp [hcm, hm1]
        simp [this]
      · intro m' hm'
        have := (List.mem_filter.mp hm').2
        simp only [Bool.not_eq_true', beq_eq_false_iff_ne, ne_eq] at this
        omega
      · intro hinv c' hc' i hci
        obtain ⟨c, hc, hceq⟩ := List.mem_map.mp hc'
        by_cases hmatch : (c.messagesId == some m1.id) = true
        · rw [if_pos hmatch] at hceq
          rw [← hceq] at hci
          simp at hci
        · rw [if_neg hmatch] at hceq
          subst hceq
          have hine : i ≠ mid := by
            intro hcontra
            subst hcontra
            rw [hci, hm1] at hmatch
            simp at hmatch
          obtain ⟨m', hm', hmi⟩ := hinv c hc i hci
          refine ⟨m', List.mem_filter.mpr ⟨hm', ?_⟩, hmi⟩
          simp only [Bool.not_eq_true', beq_eq_false_iff_ne, ne_eq]
          omega

/-- Witness for C3: after deleting message 1 the referencing
conversation survives with both columns null. -/
theorem deleteMessage_clears_references_witness :
    (⟨1, "aaaaaaaa-bbbb-cccc-dddd-eeeeeeeeeeee", none, none⟩ : Conversation) ∈
      (deleteMessage dbW2 1).1.conversations :=
  (deleteMessage_clears_references dbW2 1 ⟨1, "bot", "x"⟩ (by decide) rfl).2.2.1
    ⟨1, "aaaaaaaa-bbbb-cccc-dddd-eeeeeeeeeeee", some 1, some "x"⟩ (by decide) rfl

lemma filter_out_unique_id (l : List Conversation) (cid : Nat)
    (hpw : l.Pairwise (fun a b => a.id ≠ b.id)) (c0 : Conversation)
    (hc0 : c0 ∈ l) (hid : c0.id = cid) :
    (l.filter (fun c => !(c.id == cid))).length + 1 = l.length := by
  induction l with
  | nil => cases hc0
  | cons a t ih =>
      rw [List.pairwise_cons] at hpw
      obtain ⟨ha, hpt⟩ := hpw
      rcases List.mem_cons.mp hc0 with heq | hmem
      · have hpa : (!(a.id == cid)) = false := by
          rw [← heq]
          simp [hid]
        have ht : t.filter (fun c => !(c.id == cid)) = t := by
          apply List.filter_eq_self.mpr
          intro b hb
          have hne := ha b hb
          rw [← heq] at hne
          simp only [Bool.not_eq_true', beq_eq_false_iff_ne, ne_eq]
          omega
        simp [List.filter_cons, hpa, ht]
      · have hane : a.id ≠ c0.id := ha c0 hmem
        have hpa : (!(a.id == cid)) = true := by
          simp only [Bool.not_eq_true', beq_eq_false_iff_ne, ne_eq]
          omega
        have := ih hpt hmem
        simp only [List.filter_cons, hpa, if_true, List.length_cons]
        omega

/-- C8: deleting an existing conversation removes exactly that row: the
reply is 204, the message table is untouched, every other conversation
row survives unchanged, and nothing else appears. -/
theorem deleteConversation_frame
    (db : DB) (cid : Nat) (c0 : Conversation) (hwf : WF db)
    (hc0 : c0 ∈ db.conversations) (hid : c0.id = cid) :
    ((deleteConversation db cid).2) = DeleteResponse.noContent ∧
    (deleteConversation db cid).1.messages = db.messages ∧
    (deleteConversation db cid).1.conversations.length + 1 = db.conversations.length ∧
    (∀ c ∈ db.conversations, c.id ≠ cid → c ∈ (deleteConversation db cid).1.conversations) ∧
    (∀ c ∈ (deleteConversation db cid).1.conversations, c ∈ db.conversations ∧ c.id ≠ cid) := by
  cases hfind : db.conversations.find? (fun c => c.id == cid) with
  | none =>
      exfalso
      rw [List.find?_eq_none] at hfind
      exact hfind c0 hc0 (by simp [hid])
  | some c1 =>
      simp only [deleteConversation, hfind]
      refine ⟨trivial, trivial, ?_, ?_, ?_⟩
      · exact filter_out_unique_id db.conversations cid hwf.convIds c0 hc0 hid
      · intro c hc hne
        refine List.mem_filter.mpr ⟨hc, ?_⟩
        simp only [Bool.not_eq_true', beq_eq_false_iff_ne, ne_eq]
        omega
      · intro c hc
        have h1 := (List.mem_filter.mp hc).1
        have h2 := (List.mem_filter.mp hc).2
        simp only [Bool.not_eq_true', beq_eq_false_iff_ne, ne_eq] at h2
        exact ⟨h1, h2⟩

/-- Witness for C8 at the concrete store: messages survive the
conversation delete. -/
theorem deleteConversation_frame_witness :
    (deleteConversation dbW2 1).1.messages = dbW2.messages :=
  (deleteConversation_frame dbW2 1 ⟨1, "aaaaaaaa-bbbb-cccc-dddd-eeeeeeeeeeee", some 1, some "x"⟩
    ⟨by decide, by decide, by decide, by decide, by decide⟩ (by decide) rfl).2.1

/-- C9: listing is 1-indexed (page 1 serves the first `limit` matching
rows) and a page past the last one is a successful 200 response with an
empty data array and `meta.total` still the true number of matching
conversations. -/
theorem getAllConversations_pagination
    (db : DB) (sessionId? : Option String) (page limit : Nat) (hlimit : 0 < limit)
    (hpast : (getAllConversations db sessionId? page limit).2.meta.lastPage < page) :
    (getAllConversations db sessionId? page limit).1 = 200 ∧
    (getAllConversations db sessionId? page limit).2.data = [] ∧
    (getAllConversations db sessionId? page limit).2.meta.total =
      (filterBySession db sessionId?).length ∧
    (getAllConversations db sessionId? 1 limit).2.data =
      ((filterBySession db sessionId?).take limit).map (serializeConversation db) := by
  have hp : max (((filterBySession db sessionId?).length + limit - 1) / limit) 1 < page :=
    hpast
  have hdrop : (filterBySession db sessionId?).length ≤ (page - 1) * limit := by
    have h2 : (filterBySession db sessionId?).length + limit - 1 <
        ((((filterBySession db sessionId?).length + limit - 1) / limit) + 1) * limit :=
      (Nat.div_lt_iff_lt_mul hlimit).mp
        (Nat.lt_succ_self (((filterBySession db sessionId?).length + limit - 1) / limit))
    have h3 : (((filterBySession db sessionId?).length + limit - 1) / limit) ≤ page - 1 := by
      omega
    have h4 : (((filterBySession db sessionId?).length + limit - 1) / limit) * limit ≤
        (page - 1) * limit := Nat.mul_le_mul_right limit h3
    have h5 : ((((filterBySession db sessionId?).length + limit - 1) / limit) + 1) * limit =
        (((filterBySession db sessionId?).length + limit - 1) / limit) * limit + limit := by
      ring
    rw [h5] at h2
    omega
  refine ⟨rfl, ?_, rfl, ?_⟩
  · simp [getAllConversations, List.drop_eq_nil_of_le hdrop]
  · simp [getAllConversations]

/-- Witness for C9: page 999 with limit 10 over a store of three
conversations yields empty data with `meta.total = 3`. -/
theorem getAllConversations_pagination_witness :
    (getAllConversations ⟨[⟨1, "a", none, none⟩, ⟨2, "b", none, none⟩, ⟨3, "c", none, none⟩],
        [], 4, 1⟩ none 999 10).2.data = [] ∧
    (getAllConversations ⟨[⟨1, "a", none, none⟩, ⟨2, "b", none, none⟩, ⟨3, "c", none, none⟩],
        [], 4, 1⟩ none 999 10).2.meta.total = 3 :=
  ⟨(getAllConversations_pagination ⟨[⟨1, "a", none, none⟩, ⟨2, "b", none, none⟩,
      ⟨3, "c", none, none⟩], [], 4, 1⟩ none 999 10 (by decide) (by decide)).2.1,
   (getAllConversations_pagination ⟨[⟨1, "a", none, none⟩, ⟨2, "b", none, none⟩,
      ⟨3, "c", none, none⟩], [], 4, 1⟩ none 999 10 (by decide) (by decide)).2.2.1⟩

lemma find?_beq_key_eq_some {α : Type} {κ : Type} [DecidableEq κ] (key : α → κ)
    (l : List α) (hpw : l.Pairwise (fun a b => key a ≠ key b)) (c : α) (hc : c ∈ l) :
    l.find? (fun x => key x == key c) = some c := by
  induction l with
  | nil => cases hc
  | cons a t ih =>
      rw [List.pairwise_cons] at hpw
      obtain ⟨ha, hpt⟩ := hpw
      rcases List.mem_cons.mp hc with heq | hmem
      · rw [← heq]
        simp [List.find?_cons_of_pos]
      · have hne : (key a == key c) = false := by
          simp only [beq_eq_false_iff_ne, ne_eq]
          exact ha c hmem
        rw [List.find?_cons_of_neg _ (by simp [hne]), ih hpt hmem]

/-- C7: reading a stored conversation through its numeric primary id and
through its session UUID returns the same 200 body: the identical
serialized conversation with the identical resolved last message. -/
theorem getConversation_by_id_eq_by_uuid
    (db : DB) (c : Conversation) (hwf : WF db) (hc : c ∈ db.conversations)
    (huuid : isUuidString c.session_id = true)
    (hnotid : isUuidString (Nat.repr c.id) = false)
    (hparse : parseNat? (Nat.repr c.id) = some c.id) :
    getConversationMessages db (Nat.repr c.id) = GetConvResponse.ok (serializeConversation db c) ∧
    getConversationMessages db c.session_id = GetConvResponse.ok (serializeConversation db c) := by
  constructor
  · have hfind : db.conversations.find? (fun x => x.id == c.id) = some c :=
      find?_beq_key_eq_some (fun x => x.id) db.conversations hwf.convIds c hc
    simp [getConversationMessages, hnotid, hparse, hfind]
  · have hfind : db.conversations.find? (fun x => x.session_id == c.session_id) = some c :=
      find?_beq_key_eq_some (fun x => x.session_id) db.conversations hwf.sessionIds c hc
    simp [getConversationMessages, huuid, hfind]

/-- Witness for C7 on a concrete store: id "1" and the session UUID
retrieve the same serialized body. -/
theorem getConversation_by_id_eq_by_uuid_witness :
    getConversationMessages dbW2 (Nat.repr 1) =
      GetConvResponse.ok (serializeConversation dbW2
        ⟨1, "aaaaaaaa-bbbb-cccc-dddd-eeeeeeeeeeee", some 1, some "x"⟩) ∧
    getConversationMessages dbW2 "aaaaaaaa-bbbb-cccc-dddd-eeeeeeeeeeee" =
      GetConvResponse.ok (serializeConversation dbW2
        ⟨1, "aaaaaaaa-bbbb-cccc-dddd-eeeeeeeeeeee", some 1, some "x"⟩) :=
  getConversation_by_id_eq_by_uuid dbW2
    ⟨1, "aaaaaaaa-bbbb-cccc-dddd-eeeeeeeeeeee", some 1, some "x"⟩
    ⟨by decide, by decide, by decide, by decide, by decide⟩
    (by decide) (by decide) (by decide) (by decide)

/-- C4 counterexample: the claim that the caught error's detail is never
included verbatim in a 500 body is false — `sendQuestion`'s catch branch
copies `error.message` into the body's `error` field. -/
theorem internalError_detail_leak_counterexample :
    ¬ (∀ e : String, (sendQuestionInternalError e).2.error ≠ e) :=
  fun h => h "connection refused" rfl

/-- C4 amended: every one of the five handlers maps an unexpected
internal failure to HTTP 500 whose `message` field is that handler's
fixed generic string, but the body's `error` field carries the
underlying error's message verbatim. -/
theorem internalError_generic_message_with_detail (e : String) :
    ((sendQuestionInternalError e).1 = 500 ∧
      (sendQuestionInternalError e).2.message = "An unexpected error occurred." ∧
      (sendQuestionInternalError e).2.error = e) ∧
    ((getAllConversationsInternalError e).1 = 500 ∧
      (getAllConversationsInternalError e).2.message = "Failed to retrieve conversations." ∧
      (getAllConversationsInternalError e).2.error = e) ∧
    ((getConversationMessagesInternalError e).1 = 500 ∧
      (getConversationMessagesInternalError e).2.message =
        "Failed to retrieve conversation details." ∧
      (getConversationMessagesInternalError e).2.error = e) ∧
    ((deleteConversationInternalError e).1 = 500 ∧
      (deleteConversationInternalError e).2.message = "Failed to delete conversation." ∧
      (deleteConversationInternalError e).2.error = e) ∧
    ((deleteMessageInternalError e).1 = 500 ∧
      (deleteMessageInternalError e).2.message = "Failed to delete message." ∧
      (deleteMessageInternalError e).2.error = e) :=
  ⟨⟨rfl, rfl, rfl⟩, ⟨rfl, rfl, rfl⟩, ⟨rfl, rfl, rfl⟩, ⟨rfl, rfl, rfl⟩, ⟨rfl, rfl, rfl⟩⟩

/-- C5: the `GET /conversation/:id_or_uuid` route is bound to the
handler string `ConversationsController.getConversationById`, but no
such method exists on the controller (the UUID-dispatching method is
named `getConversationMessages`), so the route cannot dispatch. -/
theorem conversationByIdRoute_handler_missing :
    (routes.find? (fun r => r.pattern == "/conversation/:id_or_uuid")).map RouteDef.handler =
      some "ConversationsController.getConversationById" ∧
    handlerResolves "ConversationsController.getConversationById" = false ∧
    handlerResolves "ConversationsController.getConversationMessages" = true ∧
    conversationsControllerMethods.contains "getConversationById" = false := by
  refine ⟨by decide, by decide, by decide, by decide⟩

end ChatbotApi
